import Mathlib

/-
Verification of the AgriBot backend pipeline (src/backend/main.py).

The embedding is shallow: each Python function of the pipeline becomes a
Lean definition, and every external effect (the langdetect library, the
GoogleTranslator call, the HTTP request to the completion API) is made
explicit as an oracle value describing what the external world did on
that particular call.  Global mutable state (the conversation history
list) is threaded explicitly.
-/

namespace AgriBot

/-- A stored conversation turn.  The Python code appends a dict with
exactly the keys "user" and "bot", both strings. -/
structure Turn where
  user : String
  bot : String
  deriving DecidableEq

/-- What the langdetect call did: produced a code, raised
LangDetectException, or raised some other exception. -/
inductive DetectResult where
  | ok (lang : String)
  | langDetectFailure
  | otherFailure
  deriving DecidableEq

/-- detect_language from main.py: return the detected code, and on
either exception class fall back to "en". -/
def detect_language : DetectResult → String
  | DetectResult.ok lang => lang
  | DetectResult.langDetectFailure => "en"
  | DetectResult.otherFailure => "en"

/-- Result of one run of translate_text: the returned text plus whether
the external translator was invoked at all (the source only constructs
and calls GoogleTranslator on the source-not-equal-target path). -/
structure TranslateRun where
  text : String
  externalCalled : Bool
  deriving DecidableEq

/-- translate_text from main.py.  The oracle ext is what the external
GoogleTranslator call would produce: some t on success, none when the
call raises (the except branch returns the original text). -/
def translate_text (text source target : String) (ext : Option String) : TranslateRun :=
  if source = target then ⟨text, false⟩
  else
    match ext with
    | some t => ⟨t, true⟩
    | none => ⟨text, true⟩

/-- The parts of the completion API response body that the code reads.
choices models result["choices"]: none when the key is absent,
some of a list otherwise; each element is the choice item's
message.content when that path exists and is a string, none when
descending the path would raise.  errorMessage models
result["error"]["message"] read with .get defaults. -/
structure JsonBody where
  choices : Option (List (Option String))
  errorMessage : Option String
  deriving DecidableEq

/-- The HTTP-level result of requests.post: a response with a status
code and a parsed body (none when response.json() raises), a timeout,
a connection failure, or any other exception. -/
inductive HttpResult where
  | response (status : Nat) (body : Option JsonBody)
  | timedOut
  | connectionFailure
  | otherException
  deriving DecidableEq

/-- Python str.strip: drop whitespace from both ends. -/
def pyStrip (s : String) : String :=
  String.mk (((s.data.dropWhile Char.isWhitespace).reverse.dropWhile Char.isWhitespace).reverse)

/-- Python str.lower, character by character. -/
def pyLower (s : String) : String :=
  String.mk (s.data.map Char.toLower)

/-- Python substring membership (pat in s) on character lists. -/
def hasSub (pat : List Char) : List Char → Bool
  | [] => List.isPrefixOf pat []
  | c :: rest => List.isPrefixOf pat (c :: rest) || hasSub pat rest

/-- Substring test on strings, used for the "credit"/"balance"
membership check the Python in-operator performs. -/
def containsSub (s pat : String) : Bool := hasSub pat.data s.data

/-- The 400-branch test: "credit" in msg.lower() or "balance" in msg.lower(). -/
def mentionsCreditOrBalance (msg : String) : Bool :=
  containsSub (pyLower msg) "credit" || containsSub (pyLower msg) "balance"

/-- Fixed user-facing message returned when no API key is configured. -/
def configErrorMsg : String :=
  "I apologize, but the AI service is currently unavailable. Please contact the administrator to configure the API key."

/-- Fixed message for the unexpected_format outcome. -/
def formatMsg : String :=
  "I received an unexpected response format. Please try again."

/-- Fixed message for the insufficient_credits outcome. -/
def creditsMsg : String :=
  "I apologize, but the AI service credits have been exhausted. Please contact the administrator to add more credits to OpenRouter."

/-- Fixed message for the bad_request outcome. -/
def badRequestMsg : String :=
  "I encountered an issue processing your request. Please try rephrasing your question."

/-- Fixed message for the authentication_error outcome. -/
def authMsg : String :=
  "Authentication failed. The API key may be invalid. Please contact the administrator."

/-- Fixed message for the payment_required outcome. -/
def paymentMsg : String :=
  "The AI service requires payment. Please add credits to your OpenRouter account."

/-- Fixed message for the rate_limit outcome. -/
def rateLimitMsg : String :=
  "Too many requests. Please wait a moment and try again."

/-- Fixed message for the server_error outcome. -/
def serverErrorMsg : String :=
  "The AI service is temporarily unavailable. Please try again in a few moments."

/-- Message for the unknown_error outcome, interpolating the status code. -/
def unknownMsg (status : Nat) : String :=
  "An unexpected error occurred (Status: " ++ toString status ++ "). Please try again."

/-- Fixed message for the timeout outcome. -/
def timeoutMsg : String :=
  "The request took too long to process. Please try again."

/-- Fixed message for the connection_error outcome. -/
def connectionMsg : String :=
  "Unable to connect to the AI service. Please check your internet connection."

/-- Fixed message for the unexpected_error outcome. -/
def unexpectedMsg : String :=
  "An unexpected error occurred. Please try again later."

/-- The (reply, is_error, error_type) triple produced by the catch-all
except branch of get_openrouter_response. -/
def unexpectedErrorOutcome : String × Bool × Option String :=
  (unexpectedMsg, true, some "unexpected_error")

/-- Content of one message in the prompt array: plain text, or the
two-part text plus image_url structure built when an image is present. -/
inductive MsgContent where
  | plain (text : String)
  | withImage (text : String) (imageUrl : String)
  deriving DecidableEq

/-- One message of the prompt array. -/
structure Msg where
  role : String
  content : MsgContent
  deriving DecidableEq

/-- The messages built from conversation_history[-5:] — each stored
exchange is rendered as a plain-text user message followed by a
plain-text assistant message. -/
def history_messages (history : List Turn) : List Msg :=
  (history.drop (history.length - 5)).flatMap
    (fun e => [⟨"user", MsgContent.plain e.user⟩, ⟨"assistant", MsgContent.plain e.bot⟩])

/-- The current user message appended after the history: multi-part
when an image URL is given, plain text otherwise. -/
def current_message (userMessage : String) (imageUrl : Option String) : Msg :=
  match imageUrl with
  | some u => ⟨"user", MsgContent.withImage userMessage u⟩
  | none => ⟨"user", MsgContent.plain userMessage⟩

/-- The full messages list built by get_openrouter_response (after the
fixed system message, which carries no history data). -/
def build_messages (history : List Turn) (userMessage : String) (imageUrl : Option String) :
    List Msg :=
  history_messages history ++ [current_message userMessage imageUrl]

/-- The 200-status branch of get_openrouter_response: none models a
body on which response.json() raised (handled by the catch-all except
branch).  A missing or empty choices list is the explicit
unexpected_format branch of the source; a present first choice whose
message/content path is missing raises KeyError in Python inside the
try block and is therefore caught by the catch-all except branch. -/
def handle200 : Option JsonBody → String × Bool × Option String
  | none => unexpectedErrorOutcome
  | some b =>
    match b.choices with
    | some (some content :: _) => (pyStrip content, false, none)
    | some (none :: _) => unexpectedErrorOutcome
    | some [] => (formatMsg, true, some "unexpected_format")
    | none => (formatMsg, true, some "unexpected_format")

/-- The 400-status branch of get_openrouter_response: none models a
body on which response.json() raised (caught by the catch-all except
branch); otherwise the error message (defaulted to "Bad request") is
tested for credit/balance mentions. -/
def handle400 : Option JsonBody → String × Bool × Option String
  | none => unexpectedErrorOutcome
  | some b =>
    if mentionsCreditOrBalance (b.errorMessage.getD "Bad request") then
      (creditsMsg, true, some "insufficient_credits")
    else (badRequestMsg, true, some "bad_request")

/-- get_openrouter_response from main.py, returning the
(response_text, is_error, error_type) tuple.  apiKeyConfigured models
bool(OPENROUTER_API_KEY); http is what the network call did.  The
userMessage, imageUrl and history arguments only shape the outgoing
payload (see build_messages); the classification of the outcome depends
on the HTTP result alone, exactly as in the source. -/
def get_openrouter_response (apiKeyConfigured : Bool) (userMessage : String)
    (imageUrl : Option String) (history : List Turn) (http : HttpResult) :
    String × Bool × Option String :=
  if apiKeyConfigured = false then
    (configErrorMsg, true, some "configuration_error")
  else
    match http with
    | HttpResult.timedOut => (timeoutMsg, true, some "timeout")
    | HttpResult.connectionFailure => (connectionMsg, true, some "connection_error")
    | HttpResult.otherException => unexpectedErrorOutcome
    | HttpResult.response status body =>
      if status = 200 then handle200 body
      else if status = 400 then handle400 body
      else if status = 401 then
        (authMsg, true, some "authentication_error")
      else if status = 402 then
        (paymentMsg, true, some "payment_required")
      else if status = 429 then
        (rateLimitMsg, true, some "rate_limit")
      else if 500 ≤ status then
        (serverErrorMsg, true, some "server_error")
      else
        (unknownMsg status, true, some "unknown_error")

/-- A chat request body: query plus optional image_url. -/
structure ChatRequest where
  query : String
  image_url : Option String
  deriving DecidableEq

/-- The ChatResponse model: reply, error flag, optional error_type. -/
structure ChatResponse where
  reply : String
  error : Bool
  error_type : Option String
  deriving DecidableEq

/-- Result of one call to the chat endpoint: either an HTTPException
with a status code and detail (raised before the pipeline runs), or a
normal 200-level ChatResponse. -/
inductive ChatResult where
  | httpError (status : Nat) (detail : String)
  | ok (resp : ChatResponse)
  deriving DecidableEq

/-- The external world during one chat request: whether the API key is
configured, what language detection did, what the inbound translation
call did, what the completion HTTP call did, and what the outbound
(back-) translation call did. -/
structure Env where
  apiKeyConfigured : Bool
  detectRes : DetectResult
  translateIn : Option String
  http : HttpResult
  translateBack : Option String
  deriving DecidableEq

/-- Detail string of the empty-message rejection. -/
def emptyDetail : String := "Empty message received"

/-- Detail string of the too-long rejection. -/
def tooLongDetail : String :=
  "Message too long. Please keep messages under 2000 characters."

/-- The normalized (working-language) text the orchestrator computes:
the trimmed input, translated to "en" when the detected language
differs from "en". -/
def chatNormalized (env : Env) (userText : String) : String :=
  if detect_language env.detectRes ≠ "en" then
    (translate_text userText (detect_language env.detectRes) "en" env.translateIn).text
  else userText

/-- The history-cap enforcement after an append: pop the head while the
size exceeds 100 (the source pops once, after a single append). -/
def evict (h : List Turn) : List Turn :=
  if h.length > 100 then h.drop 1 else h

/-- The chat endpoint from main.py, returning the response together
with the new conversation history. -/
def chat (env : Env) (req : ChatRequest) (history : List Turn) :
    ChatResult × List Turn :=
  let user_text := pyStrip req.query
  if user_text = "" then (ChatResult.httpError 400 emptyDetail, history)
  else if user_text.length > 2000 then (ChatResult.httpError 400 tooLongDetail, history)
  else
    let user_lang := detect_language env.detectRes
    let translated_text :=
      if user_lang ≠ "en" then (translate_text user_text user_lang "en" env.translateIn).text
      else user_text
    let outcome :=
      get_openrouter_response env.apiKeyConfigured translated_text req.image_url history env.http
    let history2 :=
      if outcome.2.1 = false then evict (history ++ [⟨translated_text, outcome.1⟩])
      else history
    let final_reply :=
      if user_lang ≠ "en" ∧ outcome.2.1 = false then
        (translate_text outcome.1 "en" user_lang env.translateBack).text
      else outcome.1
    (ChatResult.ok ⟨final_reply, outcome.2.1, outcome.2.2⟩, history2)

/-- The clear-history endpoint: the history becomes empty. -/
def clear_history : List Turn := []

/-- One operation against the service state. -/
inductive Op where
  | chatOp (env : Env) (req : ChatRequest)
  | clearOp

/-- Run one operation on the history. -/
def runOp (h : List Turn) : Op → List Turn
  | Op.chatOp env req => (chat env req h).2
  | Op.clearOp => clear_history

/-- Run a sequence of operations from a starting history. -/
def runOps (ops : List Op) (h : List Turn) : List Turn :=
  ops.foldl runOp h

end AgriBot

namespace AgriBot

/-! ### Shared helper definitions and lemmas -/

/-- The completion outcome the orchestrator obtains for a request that
passed validation: the API key flag, the normalized text, the image
reference and the current history are fed to get_openrouter_response. -/
def chatOutcome (env : Env) (req : ChatRequest) (history : List Turn) :
    String × Bool × Option String :=
  get_openrouter_response env.apiKeyConfigured (chatNormalized env (pyStrip req.query))
    req.image_url history env.http

/-- A well-formed 200 body whose first choice carries the text " Hello ". -/
def okBody : JsonBody := ⟨some [some " Hello "], none⟩

/-- Environment of a successful English-language request. -/
def envOk : Env := ⟨true, DetectResult.ok "en", none, HttpResult.response 200 (some okBody), none⟩

/-- Environment with no API key configured. -/
def envNoKey : Env := ⟨false, DetectResult.ok "en", none, HttpResult.otherException, none⟩

/-- Environment of a Hindi-language request whose completion succeeds,
whose inbound translation succeeds and whose back-translation fails. -/
def envHiBackFail : Env :=
  ⟨true, DetectResult.ok "hi", some "hello", HttpResult.response 200 (some okBody), none⟩

/-- A minimal valid request. -/
def reqHi : ChatRequest := ⟨"hi", none⟩

/-- A valid request in Devanagari script (non-working language). -/
def reqHindi : ChatRequest := ⟨"नमस्ते", none⟩

/-- A history already at the 100-turn cap. -/
def h100 : List Turn := List.replicate 100 ⟨"u", "b"⟩

/-- A query of 2001 identical characters (no whitespace). -/
def longQuery : String := String.mk (List.replicate 2001 'a')

/-- Characterization of chat on inputs that pass validation. -/
theorem chat_eq (env : Env) (req : ChatRequest) (history : List Turn)
    (hne : pyStrip req.query ≠ "") (hlen : (pyStrip req.query).length ≤ 2000) :
    chat env req history =
      (ChatResult.ok
        ⟨(if detect_language env.detectRes ≠ "en" ∧ (chatOutcome env req history).2.1 = false
            then (translate_text (chatOutcome env req history).1 "en"
              (detect_language env.detectRes) env.translateBack).text
            else (chatOutcome env req history).1),
          (chatOutcome env req history).2.1, (chatOutcome env req history).2.2⟩,
       if (chatOutcome env req history).2.1 = false
         then evict (history ++ [⟨chatNormalized env (pyStrip req.query),
           (chatOutcome env req history).1⟩])
         else history) := by
  simp only [chat, chatOutcome, chatNormalized]
  rw [if_neg hne, if_neg (Nat.not_lt.mpr hlen)]

/-- Shape of the 200-branch result: success without error kind, or an
error with a kind. -/
theorem handle200_shape (body : Option JsonBody) :
    (∃ t, handle200 body = (t, false, none)) ∨
    (∃ t k, handle200 body = (t, true, some k)) := by
  unfold handle200
  repeat' split
  all_goals first | (left; exact ⟨_, rfl⟩) | (right; exact ⟨_, _, rfl⟩)

/-- Shape of the 400-branch result: always an error with a kind. -/
theorem handle400_shape (body : Option JsonBody) :
    ∃ t k, handle400 body = (t, true, some k) := by
  unfold handle400
  repeat' split
  all_goals exact ⟨_, _, rfl⟩

/-- Every outcome of the completion call is either a success triple with
no error kind, or an error triple with some error kind. -/
theorem outcome_shape (conf : Bool) (msg : String) (img : Option String)
    (hist : List Turn) (http : HttpResult) :
    (∃ t, get_openrouter_response conf msg img hist http = (t, false, none)) ∨
    (∃ t k, get_openrouter_response conf msg img hist http = (t, true, some k)) := by
  unfold get_openrouter_response
  repeat' split
  all_goals first
    | (left; exact ⟨_, rfl⟩)
    | (right; exact ⟨_, _, rfl⟩)
    | exact handle200_shape _
    | (right; exact handle400_shape _)

/-- On a successful outcome the error kind is absent. -/
theorem outcome_success_no_kind (conf : Bool) (msg : String) (img : Option String)
    (hist : List Turn) (http : HttpResult)
    (h : (get_openrouter_response conf msg img hist http).2.1 = false) :
    (get_openrouter_response conf msg img hist http).2.2 = none := by
  rcases outcome_shape conf msg img hist http with ⟨t, ht⟩ | ⟨t, k, ht⟩
  · rw [ht]
  · rw [ht] at h ⊢
    simp at h

end AgriBot

namespace AgriBot

/-- Reduction of the completion call at a configured key and an HTTP
response, as a pure if-chain over the status code. -/
theorem resp_eq (msg : String) (img : Option String) (hist : List Turn)
    (status : Nat) (body : Option JsonBody) :
    get_openrouter_response true msg img hist (HttpResult.response status body) =
      (if status = 200 then handle200 body
       else if status = 400 then handle400 body
       else if status = 401 then (authMsg, true, some "authentication_error")
       else if status = 402 then (paymentMsg, true, some "payment_required")
       else if status = 429 then (rateLimitMsg, true, some "rate_limit")
       else if 500 ≤ status then (serverErrorMsg, true, some "server_error")
       else (unknownMsg status, true, some "unknown_error")) := rfl

/-! ### Claim theorems -/

/-- C7: language detection never raises; whenever the underlying
detection mechanism fails (LangDetectException or any other exception),
detect_language returns the fallback code "en"; otherwise it returns
the detected code. -/
theorem detect_language_fallback :
    detect_language DetectResult.langDetectFailure = "en" ∧
    detect_language DetectResult.otherFailure = "en" ∧
    ∀ r : DetectResult,
      (∃ l, r = DetectResult.ok l ∧ detect_language r = l) ∨ detect_language r = "en" := by
  refine ⟨rfl, rfl, ?_⟩
  intro r
  cases r with
  | ok l => exact Or.inl ⟨l, rfl, rfl⟩
  | langDetectFailure => exact Or.inr rfl
  | otherFailure => exact Or.inr rfl

/-- C6: when source and target language coincide, translate_text
returns the input unchanged and never invokes the external translator;
and when the external translation fails, it returns the original input
unchanged (it never raises: the model is a total function). -/
theorem translate_identity_and_best_effort (text source target : String) (ext : Option String) :
    (source = target → translate_text text source target ext = ⟨text, false⟩) ∧
    (translate_text text source target none).text = text := by
  constructor
  · intro h
    simp [translate_text, h]
  · unfold translate_text
    split
    · rfl
    · rfl

/-- C6 witness at concrete inputs. -/
theorem translate_identity_and_best_effort_witness :
    translate_text "hola" "es" "es" (some "x") = ⟨"hola", false⟩ ∧
    (translate_text "hola" "es" "en" none).text = "hola" :=
  ⟨(translate_identity_and_best_effort "hola" "es" "es" (some "x")).1 rfl,
   (translate_identity_and_best_effort "hola" "es" "en" none).2⟩

/-- C5: with no API credential configured, the completion call returns
the fixed configuration_error outcome with the administrator apology,
independently of (and without) any network interaction, and a valid
chat request in this state gets a normal (non-exception) response with
error true and error_type configuration_error. -/
theorem missing_credential_outcome (msg : String) (img : Option String)
    (hist : List Turn) (http : HttpResult) (env : Env) (req : ChatRequest)
    (history : List Turn) (hkey : env.apiKeyConfigured = false)
    (hne : pyStrip req.query ≠ "") (hlen : (pyStrip req.query).length ≤ 2000) :
    get_openrouter_response false msg img hist http =
      (configErrorMsg, true, some "configuration_error") ∧
    (chat env req history).1 =
      ChatResult.ok ⟨configErrorMsg, true, some "configuration_error"⟩ := by
  have ho : chatOutcome env req history = (configErrorMsg, true, some "configuration_error") := by
    unfold chatOutcome
    rw [hkey]
    rfl
  constructor
  · rfl
  · rw [chat_eq env req history hne hlen]
    simp [ho]

/-- C5 witness at concrete inputs. -/
theorem missing_credential_outcome_witness :
    get_openrouter_response false "hi" none [] HttpResult.otherException =
      (configErrorMsg, true, some "configuration_error") ∧
    (chat envNoKey reqHi []).1 =
      ChatResult.ok ⟨configErrorMsg, true, some "configuration_error"⟩ :=
  missing_credential_outcome "hi" none [] HttpResult.otherException envNoKey reqHi []
    rfl (by decide) (by decide)

/-- C3: the completion call classifies every HTTP-level result into
exactly one of the fixed error kinds — a 400 whose error message
mentions credit or balance gives insufficient_credits, any other 400
gives bad_request, 401 gives authentication_error, 402 gives
payment_required, 429 gives rate_limit, a status of at least 500 gives
server_error, any other status gives unknown_error, a timeout gives
timeout, a connection failure gives connection_error and any other
exception gives unexpected_error — each with is_error true and its
fixed user-facing message, and it never raises past its boundary:
every outcome carries an error kind exactly when is_error is true. -/
theorem completion_classification (msg : String) (img : Option String)
    (hist : List Turn) (b : JsonBody) (body : Option JsonBody) (status : Nat) :
    (mentionsCreditOrBalance (b.errorMessage.getD "Bad request") = true →
      get_openrouter_response true msg img hist (HttpResult.response 400 (some b)) =
        (creditsMsg, true, some "insufficient_credits")) ∧
    (mentionsCreditOrBalance (b.errorMessage.getD "Bad request") = false →
      get_openrouter_response true msg img hist (HttpResult.response 400 (some b)) =
        (badRequestMsg, true, some "bad_request")) ∧
    get_openrouter_response true msg img hist (HttpResult.response 401 body) =
      (authMsg, true, some "authentication_error") ∧
    get_openrouter_response true msg img hist (HttpResult.response 402 body) =
      (paymentMsg, true, some "payment_required") ∧
    get_openrouter_response true msg img hist (HttpResult.response 429 body) =
      (rateLimitMsg, true, some "rate_limit") ∧
    (500 ≤ status →
      get_openrouter_response true msg img hist (HttpResult.response status body) =
        (serverErrorMsg, true, some "server_error")) ∧
    (status ≠ 200 → status ≠ 400 → status ≠ 401 → status ≠ 402 → status ≠ 429 →
      status < 500 →
      get_openrouter_response true msg img hist (HttpResult.response status body) =
        (unknownMsg status, true, some "unknown_error")) ∧
    get_openrouter_response true msg img hist HttpResult.timedOut =
      (timeoutMsg, true, some "timeout") ∧
    get_openrouter_response true msg img hist HttpResult.connectionFailure =
      (connectionMsg, true, some "connection_error") ∧
    get_openrouter_response true msg img hist HttpResult.otherException =
      (unexpectedMsg, true, some "unexpected_error") ∧
    ∀ http : HttpResult,
      ((get_openrouter_response true msg img hist http).2.1 = true ↔
        (get_openrouter_response true msg img hist http).2.2 ≠ none) := by
  refine ⟨?_, ?_, rfl, rfl, rfl, ?_, ?_, rfl, rfl, rfl, ?_⟩
  · intro hm
    show (if mentionsCreditOrBalance (b.errorMessage.getD "Bad request") = true then
        ((creditsMsg, true, some "insufficient_credits") : String × Bool × Option String)
      else (badRequestMsg, true, some "bad_request")) =
      (creditsMsg, true, some "insufficient_credits")
    rw [if_pos hm]
  · intro hm
    show (if mentionsCreditOrBalance (b.errorMessage.getD "Bad request") = true then
        ((creditsMsg, true, some "insufficient_credits") : String × Bool × Option String)
      else (badRequestMsg, true, some "bad_request")) =
      (badRequestMsg, true, some "bad_request")
    rw [if_neg (by simp [hm])]
  · intro h500
    rw [resp_eq, if_neg (by omega : ¬status = 200), if_neg (by omega : ¬status = 400),
      if_neg (by omega : ¬status = 401), if_neg (by omega : ¬status = 402),
      if_neg (by omega : ¬status = 429), if_pos h500]
  · intro h200 h400 h401 h402 h429 h500
    rw [resp_eq, if_neg h200, if_neg h400, if_neg h401, if_neg h402, if_neg h429,
      if_neg (by omega : ¬500 ≤ status)]
  · intro http
    rcases outcome_shape true msg img hist http with ⟨t, ht⟩ | ⟨t, k, ht⟩ <;>
      rw [ht] <;> simp

/-- C3 witness at concrete inputs. -/
theorem completion_classification_witness :
    get_openrouter_response true "hi" none []
        (HttpResult.response 400 (some ⟨none, some "Insufficient Credits"⟩)) =
      (creditsMsg, true, some "insufficient_credits") ∧
    get_openrouter_response true "hi" none [] (HttpResult.response 503 none) =
      (serverErrorMsg, true, some "server_error") ∧
    get_openrouter_response true "hi" none [] (HttpResult.response 418 none) =
      (unknownMsg 418, true, some "unknown_error") :=
  ⟨(completion_classification "hi" none [] ⟨none, some "Insufficient Credits"⟩ none 503).1
      (by decide),
   (completion_classification "hi" none [] ⟨none, some "Insufficient Credits"⟩ none
      503).2.2.2.2.2.1 (by omega),
   (completion_classification "hi" none [] ⟨none, some "Insufficient Credits"⟩ none
      418).2.2.2.2.2.2.1 (by omega) (by omega) (by omega) (by omega) (by omega) (by omega)⟩


/-- The cap enforcement keeps any list of at most 101 turns at 100 or
fewer. -/
theorem evict_le (l : List Turn) (hl : l.length ≤ 101) : (evict l).length ≤ 100 := by
  unfold evict
  split
  · rw [List.length_drop]
    omega
  · omega

/-- One chat call preserves the 100-turn bound on the history. -/
theorem chat_len_le (env : Env) (req : ChatRequest) (h : List Turn)
    (hh : h.length ≤ 100) : ((chat env req h).2).length ≤ 100 := by
  simp only [chat]
  by_cases h1 : pyStrip req.query = ""
  · rw [if_pos h1]
    exact hh
  · rw [if_neg h1]
    by_cases h2 : (pyStrip req.query).length > 2000
    · rw [if_pos h2]
      exact hh
    · rw [if_neg h2]
      show (if _ = false then evict _ else h).length ≤ 100
      repeat' split
      all_goals first
        | exact hh
        | (apply evict_le; rw [List.length_append]; simp; omega)

/-- Any operation sequence preserves the 100-turn bound. -/
theorem runOps_le (ops : List Op) : ∀ h : List Turn, h.length ≤ 100 →
    (runOps ops h).length ≤ 100 := by
  induction ops with
  | nil => intro h hh; exact hh
  | cons op rest ih =>
    intro h hh
    show (runOps rest (runOp h op)).length ≤ 100
    apply ih
    cases op with
    | chatOp env req => exact chat_len_le env req h hh
    | clearOp => simp [runOp, clear_history]

/-- C1: the conversation history is mutated only when the completion
outcome is a success (is_error false), and then by appending exactly the
turn made of the normalized working-language user text and the reply
text before back-translation; an error outcome from the completion
client leaves the history unchanged. -/
theorem chat_history_success_only (env : Env) (req : ChatRequest) (history : List Turn)
    (hne : pyStrip req.query ≠ "") (hlen : (pyStrip req.query).length ≤ 2000) :
    ((chatOutcome env req history).2.1 = true → (chat env req history).2 = history) ∧
    ((chatOutcome env req history).2.1 = false →
      (chat env req history).2 =
        evict (history ++ [⟨chatNormalized env (pyStrip req.query),
          (chatOutcome env req history).1⟩])) := by
  constructor <;> intro h <;> rw [chat_eq env req history hne hlen] <;> simp [h]

/-- C1 witness: a concrete successful request appends its turn. -/
theorem chat_history_success_only_witness :
    (chat envOk reqHi []).2 =
      evict ([] ++ [⟨chatNormalized envOk (pyStrip reqHi.query),
        (chatOutcome envOk reqHi []).1⟩]) :=
  (chat_history_success_only envOk reqHi [] (by decide) (by decide)).2 rfl

/-- C2: over every sequence of chat and clear-history operations from
the empty store the history size never exceeds 100; a successful chat
on a history of exactly 100 turns evicts exactly the oldest turn,
appends the new turn at the tail, and the size stays 100. -/
theorem conversation_store_bounded (env : Env) (req : ChatRequest) (h : List Turn)
    (hlen100 : h.length = 100) (hne : pyStrip req.query ≠ "")
    (hql : (pyStrip req.query).length ≤ 2000)
    (hsucc : (chatOutcome env req h).2.1 = false) :
    (∀ ops : List Op, (runOps ops []).length ≤ 100) ∧
    (chat env req h).2 =
      h.tail ++ [⟨chatNormalized env (pyStrip req.query), (chatOutcome env req h).1⟩] ∧
    ((chat env req h).2).length = 100 := by
  have h2 : (chat env req h).2 =
      h.tail ++ [⟨chatNormalized env (pyStrip req.query), (chatOutcome env req h).1⟩] := by
    rw [chat_eq env req h hne hql]
    simp only [hsucc, if_pos]
    unfold evict
    rw [if_pos (by rw [List.length_append]; simp [hlen100])]
    rw [List.drop_append_eq_append_drop]
    rw [List.drop_one]
    rw [hlen100]
    rfl
  refine ⟨fun ops => runOps_le ops [] (by simp), h2, ?_⟩
  rw [h2, List.length_append, List.length_tail]
  simp [hlen100]

/-- C2 witness: a concrete successful chat on a 100-turn history. -/
theorem conversation_store_bounded_witness :
    (∀ ops : List Op, (runOps ops []).length ≤ 100) ∧
    (chat envOk reqHi h100).2 =
      h100.tail ++ [⟨chatNormalized envOk (pyStrip reqHi.query),
        (chatOutcome envOk reqHi h100).1⟩] ∧
    ((chat envOk reqHi h100).2).length = 100 :=
  conversation_store_bounded envOk reqHi h100 (List.length_replicate 100 ⟨"u", "b"⟩)
    (by decide) (by decide) rfl


/-- dropWhile is the identity on a replicate of a character the
predicate rejects. -/
theorem dropWhile_replicate_not (n : Nat) (c : Char) (hc : Char.isWhitespace c = false) :
    List.dropWhile Char.isWhitespace (List.replicate n c) = List.replicate n c := by
  cases n with
  | zero => rfl
  | succ m =>
    rw [List.replicate_succ, List.dropWhile_cons]
    simp [hc]

/-- Stripping the 2001-character query changes nothing. -/
theorem pyStrip_longQuery : pyStrip longQuery = longQuery := by
  show String.mk ((((List.replicate 2001 'a').dropWhile Char.isWhitespace).reverse.dropWhile
    Char.isWhitespace).reverse) = longQuery
  rw [dropWhile_replicate_not 2001 'a' (by decide), List.reverse_replicate,
    dropWhile_replicate_not 2001 'a' (by decide), List.reverse_replicate]
  rfl

/-- The long query has 2001 characters. -/
theorem longQuery_len : longQuery.length = 2001 := by
  show (List.replicate 2001 'a').length = 2001
  exact List.length_replicate 2001 'a'

/-- C4: a query that is empty after trimming is rejected with an HTTP
400 empty-message signal, a trimmed query longer than 2000 characters
is rejected with an HTTP 400 too-long signal, in both cases with the
history unchanged; and the result is then independent of the whole
external environment (language detection, translation, completion),
so the completion pipeline is never reached. -/
theorem chat_input_validation (env env2 : Env) (req : ChatRequest) (history : List Turn) :
    (pyStrip req.query = "" →
      chat env req history = (ChatResult.httpError 400 emptyDetail, history)) ∧
    (pyStrip req.query ≠ "" → (pyStrip req.query).length > 2000 →
      chat env req history = (ChatResult.httpError 400 tooLongDetail, history)) ∧
    ((pyStrip req.query = "" ∨ (pyStrip req.query).length > 2000) →
      chat env req history = chat env2 req history) := by
  refine ⟨?_, ?_, ?_⟩
  · intro h1
    simp only [chat]
    rw [if_pos h1]
  · intro h1 h2
    simp only [chat]
    rw [if_neg h1, if_pos h2]
  · intro hor
    by_cases h1 : pyStrip req.query = ""
    · simp only [chat]
      rw [if_pos h1, if_pos h1]
    · have h2 : (pyStrip req.query).length > 2000 := by
        rcases hor with h | h
        · exact absurd h h1
        · exact h
      simp only [chat]
      rw [if_neg h1, if_pos h2, if_neg h1, if_pos h2]

/-- C4 witness: a whitespace-only query and a 2001-character query. -/
theorem chat_input_validation_witness :
    chat envOk ⟨" ", none⟩ [] = (ChatResult.httpError 400 emptyDetail, []) ∧
    chat envOk ⟨longQuery, none⟩ [] = (ChatResult.httpError 400 tooLongDetail, []) ∧
    chat envOk ⟨longQuery, none⟩ [] = chat envNoKey ⟨longQuery, none⟩ [] := by
  have hql : (pyStrip (ChatRequest.mk longQuery none).query).length > 2000 := by
    show (pyStrip longQuery).length > 2000
    rw [pyStrip_longQuery, longQuery_len]
    omega
  have hne : pyStrip (ChatRequest.mk longQuery none).query ≠ "" := by
    show pyStrip longQuery ≠ ""
    rw [pyStrip_longQuery]
    intro hq
    have h0 := congrArg String.length hq
    rw [longQuery_len] at h0
    exact absurd h0 (by decide)
  exact ⟨(chat_input_validation envOk envNoKey ⟨" ", none⟩ []).1 (by decide),
    (chat_input_validation envOk envNoKey ⟨longQuery, none⟩ []).2.1 hne hql,
    (chat_input_validation envOk envNoKey ⟨longQuery, none⟩ []).2.2 (Or.inr hql)⟩

/-- C8 counterexample: a 200 response whose body has a non-empty
choices list whose first choice lacks the message/content path is
classified as unexpected_error (the KeyError is swallowed by the
catch-all except branch), not unexpected_format, refuting the claim
for that input. -/
theorem unexpected_format_counterexample :
    get_openrouter_response true "hi" none []
        (HttpResult.response 200 (some ⟨some [none], none⟩)) =
      (unexpectedMsg, true, some "unexpected_error") ∧
    (get_openrouter_response true "hi" none []
        (HttpResult.response 200 (some ⟨some [none], none⟩))).2.2 ≠
      some "unexpected_format" := by
  constructor
  · rfl
  · decide

/-- C8 amended: a 200 response whose body lacks the choices key or has
an empty choices list yields the unexpected_format outcome; when
choices is present and non-empty but the message/content path of the
first choice is missing, the raised lookup error lands in the catch-all
branch and yields unexpected_error instead. -/
theorem unexpected_format_scope (msg : String) (img : Option String)
    (hist : List Turn) (b : JsonBody)
    (hch : b.choices = none ∨ b.choices = some []) :
    get_openrouter_response true msg img hist (HttpResult.response 200 (some b)) =
      (formatMsg, true, some "unexpected_format") ∧
    ∀ rest : List (Option String), ∀ em : Option String,
      get_openrouter_response true msg img hist
          (HttpResult.response 200 (some ⟨some (none :: rest), em⟩)) =
        unexpectedErrorOutcome := by
  constructor
  · show handle200 (some b) = _
    rcases hch with h | h <;> simp [handle200, h]
  · intro rest em
    rfl

/-- C8 amended witness at concrete inputs. -/
theorem unexpected_format_scope_witness :
    get_openrouter_response true "hi" none []
        (HttpResult.response 200 (some ⟨none, none⟩)) =
      (formatMsg, true, some "unexpected_format") ∧
    get_openrouter_response true "hi" none []
        (HttpResult.response 200 (some ⟨some [none], none⟩)) = unexpectedErrorOutcome :=
  ⟨(unexpected_format_scope "hi" none [] ⟨none, none⟩ (Or.inl rfl)).1,
   (unexpected_format_scope "hi" none [] ⟨none, none⟩ (Or.inl rfl)).2 [] none⟩

/-- C9: the image reference never reaches the conversation history —
the post-request history is identical whether or not the request
carried an image — and every prompt message built from stored history
is plain text, so context built from past turns contains no image
parts. -/
theorem image_not_persisted (env : Env) (q u : String) (history : List Turn) :
    (chat env ⟨q, some u⟩ history).2 = (chat env ⟨q, none⟩ history).2 ∧
    ∀ m ∈ history_messages history, ∃ s, m.content = MsgContent.plain s := by
  constructor
  · rfl
  · intro m hm
    unfold history_messages at hm
    rw [List.mem_flatMap] at hm
    obtain ⟨e, he, hme⟩ := hm
    simp only [List.mem_cons, List.mem_singleton, List.not_mem_nil, or_false] at hme
    rcases hme with h | h
    · exact ⟨e.user, by rw [h]⟩
    · exact ⟨e.bot, by rw [h]⟩

/-- C9 witness at concrete inputs. -/
theorem image_not_persisted_witness :
    (chat envOk ⟨"hi", some "http://x/img.png"⟩ []).2 = (chat envOk ⟨"hi", none⟩ []).2 ∧
    ∃ s, (Msg.mk "user" (MsgContent.plain "u")).content = MsgContent.plain s :=
  ⟨(image_not_persisted envOk "hi" "http://x/img.png" []).1,
   (image_not_persisted envOk "hi" "http://x/img.png" [⟨"u", "b"⟩]).2
     ⟨"user", MsgContent.plain "u"⟩ (by decide)⟩

/-- The error kind of a successful chat outcome is absent. -/
theorem chatOutcome_success_no_kind (env : Env) (req : ChatRequest) (history : List Turn)
    (h : (chatOutcome env req history).2.1 = false) :
    (chatOutcome env req history).2.2 = none :=
  outcome_success_no_kind env.apiKeyConfigured _ req.image_url history env.http h

/-- C10: on a successful completion for a non-working-language request
whose back-translation fails, the response still reports no error
(error false, error_type absent) and the reply is the working-language
text of the completion outcome. -/
theorem backtranslation_failure_silent (env : Env) (req : ChatRequest) (history : List Turn)
    (hne : pyStrip req.query ≠ "") (hlen : (pyStrip req.query).length ≤ 2000)
    (hlang : detect_language env.detectRes ≠ "en")
    (hback : env.translateBack = none)
    (hsucc : (chatOutcome env req history).2.1 = false) :
    (chat env req history).1 =
      ChatResult.ok ⟨(chatOutcome env req history).1, false, none⟩ := by
  have ht : (translate_text (chatOutcome env req history).1 "en"
      (detect_language env.detectRes) none).text = (chatOutcome env req history).1 := by
    unfold translate_text
    split
    · rfl
    · rfl
  rw [chat_eq env req history hne hlen]
  show ChatResult.ok _ = _
  rw [if_pos ⟨hlang, hsucc⟩, hback, ht, hsucc,
    chatOutcome_success_no_kind env req history hsucc]

/-- C10 witness: a Hindi request with a successful completion and a
failing back-translation. -/
theorem backtranslation_failure_silent_witness :
    (chat envHiBackFail reqHindi []).1 =
      ChatResult.ok ⟨(chatOutcome envHiBackFail reqHindi []).1, false, none⟩ :=
  backtranslation_failure_silent envHiBackFail reqHindi [] (by decide) (by decide)
    (by decide) rfl rfl

end AgriBot
